import Mathlib

/-!
# Verification of the swilib patch parser and consistency analyzer

Shallow embedding of the core of `node-sie-swilib`:

* `src/swilib/parse.ts` — `parseSwilibPatch`, `parseSwilibFuncName`,
  `getSwilibValueType` and the associated data types;
* `src/swilib/analyze.ts` — `analyzeSwilib`, `checkTypeConsistency`,
  `isSameFunctions`, `isStrInArray`, `getFunctionPairs`.

JavaScript sparse arrays are modelled as `List (Option _)` (a hole or an
out-of-range read yields `none`, like `undefined`); `Record<number, T>`
objects are modelled as association lists with unique keys so that
`Object.keys(r).length` is the list length; machine integers are `Nat`
(all values produced by the code are non-negative and below `2^32`).
-/

/-- `SwiValueType` from `src/swilib/parse.ts` (value classification). -/
inductive SwiValueType where
  | UNDEFINED
  | POINTER_TO_RAM
  | POINTER_TO_FLASH
  | VALUE
  deriving DecidableEq, Repr

/-- `SwiType` from `src/swilib/parse.ts` (catalog entry kind). -/
inductive SwiType where
  | EMPTY
  | FUNCTION
  | POINTER
  | VALUE
  deriving DecidableEq, Repr

/-- `SwiEntry` from `src/swilib/parse.ts`: one patch-table slot. -/
structure SwiEntry where
  id : Nat
  value : Nat
  symbol : String
  type : SwiValueType
  comment : Option String := none
  deriving DecidableEq, Repr

/-- `SdkEntry` (from `src/sdklib/parse.ts`, not under `src/` here): the fields
read by the analyzer.  The remaining fields of the source type (`name`,
`definitions`, `functions`, `pointers`, `files`, `pointerTo`) are never read by
`analyzeSwilib` and are omitted. -/
structure SdkEntry where
  id : Nat
  symbol : String
  type : SwiType
  aliases : List String
  platforms : Option (List String) := none
  builtin : Option (List String) := none
  deriving DecidableEq, Repr

/-- `Swilib`: the parsed patch table.  The analyzer's `Swilib` additionally
carries the `platform` under analysis (`swilib.platform` in `analyze.ts`). -/
structure Swilib where
  offset : Nat := 0
  platform : String := ""
  entries : List (Option SwiEntry)
  deriving DecidableEq, Repr

/-- `Sdklib`: the SDK catalog consumed by the analyzer. -/
structure Sdklib where
  entries : List (Option SdkEntry)
  deriving DecidableEq, Repr

/-- The relational configuration read by the analyzer
(`config.functions.pairs`, `config.functions.aliases`,
`config.functions.reserved` in `analyze.ts`). -/
structure SwilibConfig where
  pairs : List (List Nat)
  aliases : Nat → Option (List String)
  reserved : List Nat

/-- Reading `arr[i]` on a JS sparse array: `undefined` for holes and
out-of-range indices. -/
def getEntry {α : Type} (l : List (Option α)) (i : Nat) : Option α :=
  l.getD i none

/-- `arr[i] = x` on a JS array: assigning past the end pads with holes. -/
def setEntry {α : Type} (l : List (Option α)) (i : Nat) (x : α) : List (Option α) :=
  let padded := if i < l.length then l else l ++ List.replicate (i + 1 - l.length) none
  padded.set i (some x)

/-- `n.toString(16)` — lowercase hexadecimal rendering of a number. -/
def toHexString (n : Nat) : String :=
  String.mk (Nat.toDigits 16 n)

/-- `s.padStart(len, c)`. -/
def jsPadStart (s : String) (len : Nat) (c : Char) : String :=
  String.mk (List.replicate (len - s.length) c) ++ s

/-- `s.toLowerCase()` restricted to its ASCII behaviour (the symbols the code
compares are `\w`-words, hence ASCII). -/
def jsToLower (s : String) : String :=
  String.mk (s.data.map Char.toLower)

/-- `s.toUpperCase()` restricted to its ASCII behaviour. -/
def jsToUpper (s : String) : String :=
  String.mk (s.data.map Char.toUpper)

/-- `formatId` from `analyze.ts`: 3-digit zero-padded uppercase hex. -/
def formatId (id : Nat) : String :=
  jsToUpper (jsPadStart (toHexString id) 3 '0')

/-- `getSwiTypeName` from `src/swilib/serialize.ts`. -/
def getSwiTypeName (t : SwiType) : String :=
  match t with
  | .EMPTY => "EMPTY"
  | .FUNCTION => "FUNCTION"
  | .POINTER => "POINTER"
  | .VALUE => "NUMERIC_VALUE"

/-- `getSwiValueTypeName` from `src/swilib/serialize.ts`. -/
def getSwiValueTypeName (t : SwiValueType) : String :=
  match t with
  | .POINTER_TO_FLASH => "POINTER_TO_FLASH"
  | .POINTER_TO_RAM => "POINTER_TO_RAM"
  | .VALUE => "NUMERIC_VALUE"
  | .UNDEFINED => "UNDEFINED"

/-! ## Symbol extraction (`parseSwilibFuncName` from `src/swilib/parse.ts`)

The source performs a fixed sequence of `String.replace` clean-up passes and
then tries three anchored regular expressions in order.  Every repetition in
those regexes ranges over a single character class, so each one is embedded as
an explicit enumeration of candidate splits in the exact order a backtracking
engine tries them (greedy: longest first). -/

/-- JS `\s` (the ASCII part; the comments handled here are single-line ASCII). -/
def isSpaceChar (c : Char) : Bool :=
  c = ' ' ∨ c = '\t' ∨ c = '\n' ∨ c = '\r' ∨ c = Char.ofNat 11 ∨ c = Char.ofNat 12

/-- `[a-f0-9]` under the `i` flag. -/
def isHexDigit (c : Char) : Bool :=
  c.isDigit ∨ ('a' ≤ c ∧ c ≤ 'f') ∨ ('A' ≤ c ∧ c ≤ 'F')

/-- JS `\w`: `[A-Za-z0-9_]`. -/
def isWordChar (c : Char) : Bool :=
  c.isAlphanum ∨ c = '_'

/-- The class `[\w\d_ *-]` of the optional middle group. -/
def isMidChar (c : Char) : Bool :=
  isWordChar c ∨ c = ' ' ∨ c = '*' ∨ c = '-'

/-- The class `[*\s]`. -/
def isStarOrSpace (c : Char) : Bool :=
  c = '*' ∨ isSpaceChar c

/-- `.replace(/^\s*0x[a-f0-9]+/i, '')`: strip a leading hex-address echo. -/
def stripLeadingHexEcho (l : List Char) : List Char :=
  match l.dropWhile isSpaceChar with
  | '0' :: x :: r =>
    if (x = 'x' ∨ x = 'X') ∧ r.takeWhile isHexDigit ≠ [] then r.dropWhile isHexDigit
    else l
  | _ => l

/-- `.replace(/\/\/.*?$/i, '')`: drop everything from the first `//` on
(single-line comments, so `.` reaching `$` is not a concern). -/
def stripLineComment : List Char → List Char
  | [] => []
  | '/' :: '/' :: _ => []
  | c :: r => c :: stripLineComment r

/-- `.replace(/(;|\*NEW\*|\?\?\?)/gi, '')`: remove every `;`, `*NEW*`
(case-insensitive) and `???`, scanning left to right. -/
def stripNoise : List Char → List Char
  | [] => []
  | ';' :: r => stripNoise r
  | '*' :: c1 :: c2 :: c3 :: '*' :: r =>
    if c1.toLower = 'n' ∧ c2.toLower = 'e' ∧ c3.toLower = 'w' then stripNoise r
    else '*' :: stripNoise (c1 :: c2 :: c3 :: '*' :: r)
  | '?' :: '?' :: '?' :: r => stripNoise r
  | c :: r => c :: stripNoise r

/-- The literal of `.replace(/Run ScreenShooter on function /g, '')`. -/
def screenShooterPhrase : List Char :=
  "Run ScreenShooter on function ".data

/-- `.replace(/Run ScreenShooter on function /g, '')`, written with explicit
fuel so that it is structurally recursive (every step consumes at least one
character, so `fuel = l.length` never runs out). -/
def stripPhraseAux : Nat → List Char → List Char
  | _, [] => []
  | 0, l => l
  | fuel + 1, c :: r =>
    if screenShooterPhrase.isPrefixOf (c :: r) then
      stripPhraseAux fuel (r.drop (screenShooterPhrase.length - 1))
    else c :: stripPhraseAux fuel r

/-- `.replace(/Run ScreenShooter on function /g, '')`. -/
def stripPhrase (l : List Char) : List Char :=
  stripPhraseAux l.length l

/-- `.replace(/\((API|MP|Disp)\)/, '')`: remove the first `(API)`, `(MP)` or
`(Disp)` (no `g` flag — at most one removal; alternatives tried in order). -/
def stripParenTag : List Char → List Char
  | [] => []
  | c :: r =>
    if "(API)".data.isPrefixOf (c :: r) then r.drop 4
    else if "(MP)".data.isPrefixOf (c :: r) then r.drop 3
    else if "(Disp)".data.isPrefixOf (c :: r) then r.drop 5
    else c :: stripParenTag r

/-- `.replace(/С/gi, 'C')`: normalize the Cyrillic Es (U+0421 / U+0441) to the
Latin letter C. -/
def fixCyrillicC (l : List Char) : List Char :=
  l.map (fun c => if c = Char.ofNat 0x0421 ∨ c = Char.ofNat 0x0441 then 'C' else c)

/-- `.trim()`. -/
def jsTrim (l : List Char) : List Char :=
  ((l.dropWhile isSpaceChar).reverse.dropWhile isSpaceChar).reverse

/-- All splits `l = pre ++ rest` with `pre` drawn from the class `cls`, longest
`pre` first: the candidates a backtracking engine tries for `cls*` (greedy). -/
def classStarSplits (cls : Char → Bool) (l : List Char) : List (List Char × List Char) :=
  (List.range ((l.takeWhile cls).length + 1)).reverse.map (fun k => (l.take k, l.drop k))

/-- Candidates for `cls+` (greedy): as `classStarSplits` with `pre` non-empty. -/
def classPlusSplits (cls : Char → Bool) (l : List Char) : List (List Char × List Char) :=
  (classStarSplits cls l).filter (fun p => !p.1.isEmpty)

/-- Candidate remainders after the separator `(?::?\s+|:)`, in the order the
engine tries them: `:` + spaces, then spaces alone, then a bare `:`. -/
def sepSplits (l : List Char) : List (List Char) :=
  (match l with
   | ':' :: r => (classPlusSplits isSpaceChar r).map Prod.snd
   | _ => [])
  ++ (classPlusSplits isSpaceChar l).map Prod.snd
  ++ (match l with
      | ':' :: r => [r]
      | _ => [])

/-- Candidate remainders after `-?` (greedy: with the dash first). -/
def dashSplits (l : List Char) : List (List Char) :=
  (match l with
   | '-' :: r => [r]
   | _ => []) ++ [l]

/-- Candidate remainders after the optional group `([\w\d_ *-]*\s*[*\s]+)?`
(greedy: group present, with its inner greedy orders, then group absent). -/
def group2Splits (l : List Char) : List (List Char) :=
  ((classStarSplits isMidChar l).flatMap (fun p1 =>
    (classStarSplits isSpaceChar p1.2).flatMap (fun p2 =>
      (classPlusSplits isStarOrSpace p2.2).map Prod.snd)))
  ++ [l]

/-- Matches `([\w\d_]+)\s*\(` (with anything allowed after the parenthesis)
after an optional middle group, returning the captured name. -/
def matchTailParen (l : List Char) : Option String :=
  (group2Splits l).findSome? (fun rest =>
    (classPlusSplits isWordChar rest).findSome? (fun pn =>
      (classStarSplits isSpaceChar pn.2).findSome? (fun ps =>
        if ps.2.head? = some '(' then
          if pn.1.isEmpty then none else some (String.mk pn.1)
        else none)))

/-- Matches `([\w\d_]+)$` after an optional middle group, returning the
captured name. -/
def matchTailEnd (l : List Char) : Option String :=
  (group2Splits l).findSome? (fun rest =>
    if rest.isEmpty then none
    else if rest.all isWordChar then some (String.mk rest) else none)

/-- `/^-?([a-f0-9]+)(?::?\s+|:)(?:([\w\d_ *-]*\s*[*\s]+))?([\w\d_]+)\s*\(/i`,
returning `m[3]`. -/
def matchPattern1 (l : List Char) : Option String :=
  (dashSplits l).findSome? (fun l1 =>
    (classPlusSplits isHexDigit l1).findSome? (fun ph =>
      (sepSplits ph.2).findSome? (fun l2 => matchTailParen l2)))

/-- `/^-?([a-f0-9]+)(?::?\s+|:)(?:([\w\d_ *-]*\s*[*\s]+))?([\w\d_]+)$/i`,
returning `m[3]`. -/
def matchPattern2 (l : List Char) : Option String :=
  (dashSplits l).findSome? (fun l1 =>
    (classPlusSplits isHexDigit l1).findSome? (fun ph =>
      (sepSplits ph.2).findSome? (fun l2 => matchTailEnd l2)))

/-- `/^([a-f0-9]+):$/i`, returning the synthesized `FUNC_<hex>` name. -/
def matchPattern3 (l : List Char) : Option String :=
  match l.getLast? with
  | some ':' =>
    let hx := l.dropLast
    if hx.isEmpty then none
    else if hx.all isHexDigit then some ("FUNC_" ++ String.mk hx) else none
  | _ => none

/-- The clean-up pipeline applied to a comment before pattern matching
(the chain of `.replace` calls and the final `.trim()`). -/
def cleanComment (comm : String) : List Char :=
  jsTrim (fixCyrillicC (stripParenTag (stripPhrase (stripNoise
    (stripLineComment (stripLeadingHexEcho comm.data))))))

/-- `parseSwilibFuncName` from `src/swilib/parse.ts`: clean the comment up,
then try the three patterns in order. -/
def parseSwilibFuncName (comm : String) : Option String :=
  match matchPattern1 (cleanComment comm) with
  | some s => some s
  | none =>
    match matchPattern2 (cleanComment comm) with
    | some s => some s
    | none => matchPattern3 (cleanComment comm)

/-! ## Value classification (`getSwilibValueType` from `src/swilib/parse.ts`) -/

/-- `getSwilibValueType`: classify a 32-bit patch value by its top byte
(`value & 0xFF000000`). -/
def getSwilibValueType (entry : Option SwiEntry) : SwiValueType :=
  match entry with
  | some e =>
    if e.value ≠ 0xFFFFFFFF then
      let addr := e.value &&& 0xFF000000
      if 0xA0000000 ≤ addr ∧ addr < 0xA8000000 then .POINTER_TO_FLASH
      else if 0xA8000000 ≤ addr ∧ addr < 0xB0000000 then .POINTER_TO_RAM
      else .VALUE
    else .UNDEFINED
  | none => .UNDEFINED

/-! ## The patch parser (`parseSwilibPatch` from `src/swilib/parse.ts`)

`vkpRawParser` is an external dependency (`@sie-js/vkp`): it tokenizes the
line-oriented patch text and invokes the `onOffset` / `onPatchData` callbacks
once per directive, in text order.  A patch text is therefore modelled as the
list of directive events it produces, and `parseSwilibPatch` as the fold of the
source's callback bodies over that list. -/

/-- One directive of the patch text, as delivered by `vkpRawParser`. -/
inductive VkpEvent where
  | offset (value : Nat)
  | patchData (address : Nat) (newBytes : List Nat) (comment : String)
  deriving DecidableEq, Repr

/-- The mutable state of `parseSwilibPatch`'s callbacks (`offset`, `entries`,
`end`). -/
structure PState where
  offset : Option Nat
  entries : List (Option SwiEntry)
  ended : Bool
  deriving DecidableEq, Repr

/-- `data.new.buffer.readUInt32LE(0)`: little-endian 32-bit read. -/
def readUInt32LE (b : List Nat) : Nat :=
  b.getD 0 0 + b.getD 1 0 * 0x100 + b.getD 2 0 * 0x10000 + b.getD 3 0 * 0x1000000

/-- `SwilibParserOptions` from `src/swilib/parse.ts`. -/
structure SwilibParserOptions where
  comments : Bool := false
  deriving DecidableEq, Repr

/-- The `SwiEntry` a successful data directive stores: the record built in
`onPatchData` (type filled in from the value, original comment kept only when
the `comments` option is set). -/
def mkParsedEntry (options : SwilibParserOptions) (address : Nat) (newBytes : List Nat)
    (comment symbol : String) : SwiEntry :=
  let e0 : SwiEntry := { id := address / 4, value := readUInt32LE newBytes,
                         symbol := symbol, type := .UNDEFINED }
  let e1 : SwiEntry := { e0 with type := getSwilibValueType (some e0) }
  if options.comments then { e1 with comment := some comment } else e1

/-- The body of the `onOffset` / `onPatchData` callbacks for one directive.
`if (!offset)` in the source is falsy for both `null` and `0`, hence the
`st.offset.getD 0 = 0` test; `if (!symbol)` is falsy for both `undefined` and
the empty string, hence the `getD "" = ""` test. -/
def pStep (options : SwilibParserOptions) (st : PState) (ev : VkpEvent) : Except String PState :=
  match ev with
  | .offset v =>
    if v = 0 then .ok { st with ended := true }
    else if st.offset.isSome then .error "Duplicated offset"
    else .ok { st with offset := some v }
  | .patchData address newBytes comment =>
    if st.ended then .error "Entry after end"
    else if st.offset.getD 0 = 0 then .error "Entry without offset"
    else if newBytes.length ≠ 4 then .error "Value length is not equal 4"
    else if address % 4 ≠ 0 then .error "Address is not aligned to 4"
    else
      let symbol := (parseSwilibFuncName comment).getD ""
      if symbol = "" then .error ("Invalid comment: " ++ comment)
      else .ok { st with entries := (setEntry st.entries (address / 4)
        (mkParsedEntry options address newBytes comment symbol)) }

/-- Run the callbacks over the directive list; the first thrown `VkpParseError`
aborts the run. -/
def pRun (options : SwilibParserOptions) (st : PState) : List VkpEvent → Except String PState
  | [] => .ok st
  | ev :: evs =>
    match pStep options st ev with
    | .error e => .error e
    | .ok st2 => pRun options st2 evs

/-- `parseSwilibPatch`: fold the callbacks over the patch text's directives and
package `{offset: offset ?? 0, entries}`. -/
def parseSwilibPatch (events : List VkpEvent) (options : SwilibParserOptions := {}) :
    Except String Swilib :=
  match pRun options { offset := none, entries := [], ended := false } events with
  | .error e => .error e
  | .ok st => .ok { offset := st.offset.getD 0, entries := st.entries }

/-! ## The consistency analyzer (`src/swilib/analyze.ts`) -/

/-- `getFunctionPairs`: invert the configured pairing groups into a
slot-indexed map (later groups overwrite earlier ones, as JS assignment does). -/
def getFunctionPairs (config : SwilibConfig) : Nat → Option (List Nat) :=
  config.pairs.foldl (fun acc p => fun id => if p.contains id then some p else acc id)
    (fun _ => none)

/-- `isStrInArray`: case-insensitive membership test. -/
def isStrInArray (arr : Option (List String)) (search : String) : Bool :=
  match arr with
  | none => false
  | some l =>
    let s := jsToLower search
    l.any (fun word => jsToLower word == s)

/-- `isSameFunctions`: the name-equivalence check.  The canonical symbol is
compared exactly; the catalog aliases and the configured aliases are compared
case-insensitively via `isStrInArray`. -/
def isSameFunctions (config : SwilibConfig) (swiEntry : Option SwiEntry)
    (sdkEntry : Option SdkEntry) : Bool :=
  match sdkEntry, swiEntry with
  | none, none => true
  | none, some _ => false
  | some _, none => false
  | some sdk, some swi =>
    if sdk.id ≠ swi.id then false
    else if sdk.symbol == swi.symbol then true
    else if isStrInArray (some sdk.aliases) swi.symbol then true
    else if isStrInArray (config.aliases sdk.id) swi.symbol then true
    else false

/-- The message produced by `checkTypeConsistency` on a mismatch. -/
def typeMismatchMessage (swiEntry : SwiEntry) (sdkEntry : SdkEntry) : String :=
  "Type mismatch: " ++ getSwiValueTypeName swiEntry.type ++
    " (SWILIB) is not allowed for " ++ getSwiTypeName sdkEntry.type ++ " (SDK)."

/-- `checkTypeConsistency`: the fixed compatibility table
(`FUNCTION → [POINTER_TO_FLASH]`, `POINTER → [POINTER_TO_FLASH,
POINTER_TO_RAM]`, `VALUE → [VALUE]`, `EMPTY → []`). -/
def checkTypeConsistency (swiEntry : SwiEntry) (sdkEntry : SdkEntry) : Option String :=
  let typesMap : SwiType → List SwiValueType := fun t =>
    match t with
    | .FUNCTION => [.POINTER_TO_FLASH]
    | .POINTER => [.POINTER_TO_FLASH, .POINTER_TO_RAM]
    | .VALUE => [.VALUE]
    | .EMPTY => []
  if !(typesMap sdkEntry.type).contains swiEntry.type then some (typeMismatchMessage swiEntry sdkEntry)
  else none

/-- The pair-check error message (`Address must be equal with #<id> <symbol>
(0x<value>).`). -/
def pairErrorMessage (masterFunc : SwiEntry) : String :=
  "Address must be equal with #" ++ formatId masterFunc.id ++ " " ++ masterFunc.symbol ++
    " (0x" ++ jsToUpper (jsPadStart (toHexString masterFunc.value) 8 '0') ++ ")."

/-- The pairing-group check (`analyze.ts` lines 44–50): if the slot belongs to
a configured group and the group's first member is patched with a value that
disagrees (or this slot is absent), the error is recorded. -/
def pairError (functionPairs : Nat → Option (List Nat)) (swilib : Swilib) (id : Nat)
    (swiEntry : Option SwiEntry) : Option String :=
  match functionPairs id with
  | none => none
  | some p =>
    match p.head?.bind (fun m => getEntry swilib.entries m) with
    | none => none
    | some masterFunc =>
      match swiEntry with
      | none => some (pairErrorMessage masterFunc)
      | some swi =>
        if masterFunc.value ≠ swi.value then some (pairErrorMessage masterFunc) else none

/-- `sdkEntry.builtin?.includes(platform)`. -/
def builtinIncludes (sdkEntry : SdkEntry) (platform : String) : Bool :=
  (sdkEntry.builtin.getD []).contains platform

/-- `sdkEntry.platforms && !sdkEntry.platforms.includes(platform)`. -/
def platformExcluded (sdkEntry : SdkEntry) (platform : String) : Bool :=
  match sdkEntry.platforms with
  | some ps => !ps.contains platform
  | none => false

/-- The duplicate-address error message (`Address already used for #<id>
<symbol>.`). -/
def dupErrorMessage (dupId : Nat) (sdklib : Sdklib) : String :=
  "Address already used for #" ++ formatId dupId ++ " " ++
    (match getEntry sdklib.entries dupId with
     | some e => e.symbol
     | none => "undefined") ++ "."

/-- The duplicate-address check (`analyze.ts` lines 78–84).  `duplicates` is
read here but never written anywhere in `analyzeSwilib`, so at every call the
map is still empty.  `if (duplicates[value])` is falsy both for a missing key
and for a stored `0`, hence the `getD 0 ≠ 0` test. -/
def dupError (duplicates : List (Nat × Nat)) (functionPairs : Nat → Option (List Nat))
    (sdklib : Sdklib) (swi : SwiEntry) : Option String :=
  if swi.value &&& 0xF0000000 = 0xA0000000 then
    let dupId := (duplicates.lookup swi.value).getD 0
    if dupId ≠ 0 then
      match functionPairs swi.id with
      | none => some (dupErrorMessage dupId sdklib)
      | some p => if !p.contains dupId then some (dupErrorMessage dupId sdklib) else none
    else none
  else none

/-- Outcome of one iteration of the `analyzeSwilib` loop for slot `id`. -/
structure SlotResult where
  unused : Bool
  err : Option String
  isMissing : Bool
  good : Bool
  deriving DecidableEq, Repr

/-- The body of the `analyzeSwilib` loop for slot `id`, mirroring the source's
control flow: `errors[id]` becomes the `err` field (later assignments
overwrite earlier ones), `missing.push(id)` becomes `isMissing`, and
`goodCnt++` becomes `good`. -/
def analyzeSlot (config : SwilibConfig) (swilib : Swilib) (sdklib : Sdklib)
    (duplicates : List (Nat × Nat)) (id : Nat) : SlotResult :=
  let functionPairs := getFunctionPairs config
  let platform := swilib.platform
  let swiEntry := getEntry swilib.entries id
  let sdkEntry := getEntry sdklib.entries id
  match sdkEntry, swiEntry with
  | none, none => { unused := true, err := none, isMissing := false, good := false }
  | none, some swi =>
    { unused := false, err := some ("Unknown function: " ++ swi.symbol),
      isMissing := false, good := false }
  | some sdk, swiEntryV =>
    let err0 := pairError functionPairs swilib id swiEntryV
    match swiEntryV with
    | none =>
      { unused := false, err := err0, isMissing := sdk.builtin.isNone, good := false }
    | some swi =>
      if builtinIncludes sdk platform then
        { unused := false, err := some ("Invalid function: " ++ swi.symbol ++ " (Reserved by ELFLoader)"),
          isMissing := false, good := false }
      else if config.reserved.contains id then
        { unused := false, err := some ("Invalid function: " ++ swi.symbol ++ " (Reserved by ELFLoader)"),
          isMissing := false, good := false }
      else if platformExcluded sdk platform then
        { unused := false, err := some "Functions is not available on this platform.",
          isMissing := false, good := false }
      else if !isSameFunctions config (some swi) (some sdk) then
        { unused := false, err := some ("Invalid function: " ++ swi.symbol),
          isMissing := false, good := false }
      else
        let err1 := match dupError duplicates functionPairs sdklib swi with
                    | some e => some e
                    | none => err0
        let err2 := if err1 = none ∧ swi.type ≠ SwiValueType.UNDEFINED then
                      checkTypeConsistency swi sdk
                    else err1
        { unused := false, err := err2, isMissing := false, good := err2.isNone }

/-- The accumulated loop state of `analyzeSwilib` (`errors`, `missing` and the
counters).  `errors` is an association list with strictly increasing keys, so
`Object.keys(errors).length` is its length. -/
structure AnalyzeAcc where
  errors : List (Nat × String)
  missing : List Nat
  good : Nat
  total : Nat
  unused : Nat
  deriving DecidableEq, Repr

/-- Fold one slot's outcome into the accumulated state. -/
def accStep (acc : AnalyzeAcc) (r : SlotResult) (id : Nat) : AnalyzeAcc :=
  if r.unused then { acc with unused := acc.unused + 1 }
  else
    { errors := acc.errors ++ (match r.err with
        | some m => [(id, m)]
        | none => []),
      missing := acc.missing ++ (if r.isMissing then [id] else []),
      good := acc.good + (if r.good then 1 else 0),
      total := acc.total + 1,
      unused := acc.unused }

/-- The `analyzeSwilib` loop over slots `0, …, n-1`. -/
def analyzeLoop (config : SwilibConfig) (swilib : Swilib) (sdklib : Sdklib)
    (duplicates : List (Nat × Nat)) : Nat → AnalyzeAcc
  | 0 => { errors := [], missing := [], good := 0, total := 0, unused := 0 }
  | n + 1 =>
    accStep (analyzeLoop config swilib sdklib duplicates n)
      (analyzeSlot config swilib sdklib duplicates n) n

/-- The aggregate statistics of an analysis run. -/
structure SwilibStat where
  bad : Nat
  good : Nat
  missing : Nat
  total : Nat
  unused : Nat
  deriving DecidableEq, Repr

/-- `SwilibAnalysisResult` from `src/swilib/analyze.ts`. -/
structure SwilibAnalysisResult where
  errors : List (Nat × String)
  missing : List Nat
  stat : SwilibStat
  deriving DecidableEq, Repr

/-- `analyzeSwilib` from `src/swilib/analyze.ts`.  The `duplicates` map is
declared and read by the loop but never written, so it stays empty. -/
def analyzeSwilib (config : SwilibConfig) (swilib : Swilib) (sdklib : Sdklib) :
    SwilibAnalysisResult :=
  let maxFunctionId := max sdklib.entries.length swilib.entries.length
  let duplicates : List (Nat × Nat) := []
  let acc := analyzeLoop config swilib sdklib duplicates maxFunctionId
  { errors := acc.errors,
    missing := acc.missing,
    stat :=
      { bad := acc.errors.length,
        good := acc.good,
        missing := acc.missing.length,
        total := acc.total,
        unused := acc.unused } }

/-! ## Specification-side definitions

These definitions follow the wording of the specification (not the source) and
are compared against the embedded source functions in the refinement
theorems. -/

/-- The spec's `valueKind` classification: `0xFFFFFFFF → Undefined`; top byte
in `[0xA0, 0xA8) → PointerToFlash`; top byte in `[0xA8, 0xB0) → PointerToRam`;
otherwise `Value`. -/
def valueKindSpec (v : Nat) : SwiValueType :=
  if v = 0xFFFFFFFF then .UNDEFINED
  else
    let topByte := v / 0x1000000
    if 0xA0 ≤ topByte ∧ topByte < 0xA8 then .POINTER_TO_FLASH
    else if 0xA8 ≤ topByte ∧ topByte < 0xB0 then .POINTER_TO_RAM
    else .VALUE

/-- The spec's fixed compatibility table: `Function` admits only
`PointerToFlash`; `Pointer` admits `PointerToFlash` or `PointerToRam`; `Value`
admits only `Value`; any other pair is outside the table. -/
def specCompat : SwiType → SwiValueType → Bool
  | .FUNCTION, v => v == .POINTER_TO_FLASH
  | .POINTER, v => v == .POINTER_TO_FLASH || v == .POINTER_TO_RAM
  | .VALUE, v => v == .VALUE
  | .EMPTY, _ => false

/-- Lower one ASCII letter (the spec's "equal up to ASCII letter case"). -/
def asciiLowerChar (c : Char) : Char :=
  if 'A' ≤ c ∧ c ≤ 'Z' then Char.ofNat (c.toNat + 32) else c

/-- Two strings are equal up to ASCII letter case. -/
def eqUpToAsciiCase (a b : String) : Bool :=
  a.data.map asciiLowerChar == b.data.map asciiLowerChar

/-- The structural violations of the claim about `parseSwilibPatch`, scanned
over the directive stream.  `seenNonzero` / `seenAny` / `seenZero` record
whether a non-zero offset directive, any offset directive, or a zero-valued
(terminator) offset directive occurred earlier. -/
def violationFrom : List VkpEvent → Bool → Bool → Bool → Bool
  | [], _, _, _ => false
  | .offset v :: evs, seenNonzero, _, seenZero =>
    if v = 0 then violationFrom evs seenNonzero true true
    else if seenNonzero then true
    else violationFrom evs true true seenZero
  | .patchData address newBytes comment :: evs, seenNonzero, seenAny, seenZero =>
    if seenZero then true
    else if !seenAny then true
    else if newBytes.length ≠ 4 then true
    else if address % 4 ≠ 0 then true
    else if (parseSwilibFuncName comment).isNone then true
    else violationFrom evs seenNonzero seenAny seenZero

/-- A directive stream contains one of the claim's structural violations: a
second non-zero offset directive; a data directive after a zero-valued
terminator; a data directive before any offset directive; a value that is not
exactly 4 bytes; an unaligned address; or a comment matching none of the three
symbol-extraction patterns. -/
def structuralViolation (events : List VkpEvent) : Bool :=
  violationFrom events false false false

/-- Whether an `Except` computation succeeded. -/
def isOkE {ε α : Type} (e : Except ε α) : Bool :=
  match e with
  | .ok _ => true
  | .error _ => false

/-! ## Concrete inputs used by counterexamples and witnesses -/

/-- A configuration with no pairs, no aliases and no reserved slots. -/
def emptyConfig : SwilibConfig :=
  { pairs := [], aliases := fun _ => none, reserved := [] }

/-- Catalog: slots 0 and 1 are plain functions `A` and `B`. -/
def exC1Sdk : Sdklib :=
  ⟨[some { id := 0, symbol := "A", type := .FUNCTION, aliases := [] },
    some { id := 1, symbol := "B", type := .FUNCTION, aliases := [] }]⟩

/-- Patch: slots 0 and 1 both carry the flash address `0xA0001234`. -/
def exC1Swi : Swilib :=
  { platform := "ELKA",
    entries := [some { id := 0, value := 0xA0001234, symbol := "A", type := .POINTER_TO_FLASH },
                some { id := 1, value := 0xA0001234, symbol := "B", type := .POINTER_TO_FLASH }] }

/-- Catalog: slot 0 exists and carries a reservation list for platform `NSG`
only. -/
def exC2Sdk : Sdklib :=
  ⟨[some { id := 0, symbol := "A", type := .FUNCTION, aliases := [], builtin := some ["NSG"] }]⟩

/-- An empty patch table analyzed under platform `ELKA`. -/
def exC2Swi : Swilib :=
  { platform := "ELKA", entries := [] }

/-- Catalog: slot 0 exists with no reservation list. -/
def exPlainSdk : Sdklib :=
  ⟨[some { id := 0, symbol := "A", type := .FUNCTION, aliases := [] }]⟩

/-- Directive stream assigning slot 0 twice (addresses 0 and 0). -/
def exC5Events : List VkpEvent :=
  [.offset 0x1000,
   .patchData 0 [0x34, 0x12, 0x00, 0xA0] "0: foo",
   .patchData 0 [0x78, 0x56, 0x00, 0xA0] "0: bar"]

/-- Catalog for the type-mismatch example: slot 5 is a `Function`. -/
def exC7Sdk : Sdklib :=
  ⟨[none, none, none, none, none,
    some { id := 5, symbol := "F", type := .FUNCTION, aliases := [] }]⟩

/-- Patch for the type-mismatch example: slot 5 carries a plain numeric value
(`valueKind = Value`). -/
def exC7Swi : Swilib :=
  { platform := "ELKA",
    entries := [none, none, none, none, none,
                some { id := 5, value := 0x1234, symbol := "F", type := .VALUE }] }

/-- Configuration pairing slots 0 and 1. -/
def exC9Cfg : SwilibConfig :=
  { pairs := [[0, 1]], aliases := fun _ => none, reserved := [] }

/-- Patch: slot 0 carries `0xA0001000`, slot 1 a different value. -/
def exC9Swi : Swilib :=
  { platform := "ELKA",
    entries := [some { id := 0, value := 0xA0001000, symbol := "A", type := .POINTER_TO_FLASH },
                some { id := 1, value := 0xA0001004, symbol := "B", type := .POINTER_TO_FLASH }] }

/-- Catalog with a slot-0 entry only: slot 1 is unknown to the catalog. -/
def exC9Sdk : Sdklib :=
  ⟨[some { id := 0, symbol := "A", type := .FUNCTION, aliases := [] }]⟩

/-- Catalog with entries for both paired slots. -/
def exC9wSdk : Sdklib :=
  ⟨[some { id := 0, symbol := "A", type := .FUNCTION, aliases := [] },
    some { id := 1, symbol := "B", type := .FUNCTION, aliases := [] }]⟩

/-- An entry carrying only a value, as `parseSwilibPatch` builds it before the
type is filled in. -/
def mkValueEntry (v : Nat) : SwiEntry :=
  { id := 0, value := v, symbol := "", type := .UNDEFINED }

/-! ## Helper lemmas -/

theorem getEntry_eq_some_lt {α : Type} (l : List (Option α)) (i : Nat) (x : α)
    (h : getEntry l i = some x) : i < l.length := by
  by_contra hn
  rw [getEntry, List.getD_eq_default] at h
  · exact Option.noConfusion h
  · omega

/-- For a 32-bit value, masking with `0xFF000000` isolates the top byte. -/
theorem land_top_byte (v : Nat) (hv : v < 2 ^ 32) :
    v &&& 0xFF000000 = v / 0x1000000 * 0x1000000 := by
  have hrw : v / 0x1000000 * 0x1000000 = (v >>> 24) <<< 24 := by
    rw [Nat.shiftRight_eq_div_pow, Nat.shiftLeft_eq]
  have hmask : (0xFF000000 : Nat) = (2 ^ 8 - 1) <<< 24 := by norm_num [Nat.shiftLeft_eq]
  apply Nat.eq_of_testBit_eq
  intro i
  rw [Nat.testBit_land, hrw, hmask, Nat.testBit_shiftLeft, Nat.testBit_shiftLeft,
    Nat.testBit_shiftRight, Nat.testBit_two_pow_sub_one]
  rcases Nat.lt_or_ge i 24 with h24 | h24
  · simp [Nat.not_le.mpr h24]
  · rcases Nat.lt_or_ge i 32 with h32 | h32
    · have h1 : 24 + (i - 24) = i := by omega
      have h8 : i - 24 < 8 := by omega
      simp [h1, h24, h8]
    · have hv' : v.testBit i = false :=
        Nat.testBit_lt_two_pow (Nat.lt_of_lt_of_le hv (Nat.pow_le_pow_right (by omega) h32))
      have h1 : 24 + (i - 24) = i := by omega
      simp [h24, h1, hv']

/-- C4: for every 32-bit patch value, the derived `valueKind` is `Undefined`
for `0xFFFFFFFF`, `PointerToFlash` for a top byte in `[0xA0, 0xA8)`,
`PointerToRam` for a top byte in `[0xA8, 0xB0)`, and `Value` otherwise; in
particular at the four listed values. -/
theorem c4_value_kind_refines :
    (∀ e : SwiEntry, e.value < 2 ^ 32 → getSwilibValueType (some e) = valueKindSpec e.value) ∧
    getSwilibValueType (some (mkValueEntry 0xFFFFFFFF)) = SwiValueType.UNDEFINED ∧
    getSwilibValueType (some (mkValueEntry 0xA0000000)) = SwiValueType.POINTER_TO_FLASH ∧
    getSwilibValueType (some (mkValueEntry 0xA8000000)) = SwiValueType.POINTER_TO_RAM ∧
    getSwilibValueType (some (mkValueEntry 0x00001234)) = SwiValueType.VALUE := by
  refine ⟨?_, rfl, rfl, rfl, rfl⟩
  intro e hv
  unfold getSwilibValueType valueKindSpec
  by_cases hff : e.value = 0xFFFFFFFF
  · simp [hff]
  · simp only [ne_eq, hff, not_false_eq_true, if_true, if_false]
    rw [land_top_byte e.value hv]
    split_ifs <;> first | rfl | omega

/-- C4 witness: the refinement applied at the concrete value `0xA0000000`. -/
theorem c4_value_kind_refines_witness :
    (mkValueEntry 0xA0000000).value < 2 ^ 32 ∧
      getSwilibValueType (some (mkValueEntry 0xA0000000)) = valueKindSpec 0xA0000000 :=
  ⟨by decide, c4_value_kind_refines.1 (mkValueEntry 0xA0000000) (by decide)⟩

/-- C1: evaluation at the failing input.  Slots 0 and 1 both carry the
flash-resident value `0xA0001234`, are not paired, and pass every other check,
yet the run reports no error at all: the `duplicates` map that the
duplicate-address check reads is never written, so the
`Address already used` verdict can never be produced. -/
theorem c1_duplicate_check_never_fires :
    analyzeSwilib emptyConfig exC1Swi exC1Sdk =
      { errors := [], missing := [],
        stat := { bad := 0, good := 2, missing := 0, total := 2, unused := 0 } } := by
  rfl

theorem analyzeSlot_unused_eq (config : SwilibConfig) (swilib : Swilib) (sdklib : Sdklib)
    (d : List (Nat × Nat)) (id : Nat) :
    (analyzeSlot config swilib sdklib d id).unused
      = ((getEntry sdklib.entries id).isNone && (getEntry swilib.entries id).isNone) := by
  simp only [analyzeSlot]
  rcases getEntry sdklib.entries id with _ | sdk <;>
    rcases getEntry swilib.entries id with _ | swi <;>
      simp <;> (repeat' split) <;> rfl

theorem analyzeSlot_unused_fields (config : SwilibConfig) (swilib : Swilib) (sdklib : Sdklib)
    (d : List (Nat × Nat)) (id : Nat)
    (h : (analyzeSlot config swilib sdklib d id).unused = true) :
    (analyzeSlot config swilib sdklib d id).err = none ∧
      (analyzeSlot config swilib sdklib d id).isMissing = false ∧
      (analyzeSlot config swilib sdklib d id).good = false := by
  revert h
  simp only [analyzeSlot]
  rcases getEntry sdklib.entries id with _ | sdk <;>
    rcases getEntry swilib.entries id with _ | swi <;>
      simp <;> (repeat' split) <;> simp

theorem analyzeSlot_both_present (config : SwilibConfig) (swilib : Swilib) (sdklib : Sdklib)
    (d : List (Nat × Nat)) (id : Nat) (sdk : SdkEntry) (swi : SwiEntry)
    (h1 : getEntry sdklib.entries id = some sdk) (h2 : getEntry swilib.entries id = some swi) :
    (analyzeSlot config swilib sdklib d id).unused = false ∧
      (analyzeSlot config swilib sdklib d id).isMissing = false ∧
      (analyzeSlot config swilib sdklib d id).good
        = (analyzeSlot config swilib sdklib d id).err.isNone := by
  simp only [analyzeSlot, h1, h2]
  (repeat' split) <;> simp

theorem analyzeSlot_catalog_only (config : SwilibConfig) (swilib : Swilib) (sdklib : Sdklib)
    (d : List (Nat × Nat)) (id : Nat) (sdk : SdkEntry)
    (h1 : getEntry sdklib.entries id = some sdk) (h2 : getEntry swilib.entries id = none) :
    analyzeSlot config swilib sdklib d id =
      { unused := false, err := pairError (getFunctionPairs config) swilib id none,
        isMissing := sdk.builtin.isNone, good := false } := by
  simp only [analyzeSlot, h1, h2]

theorem analyzeSlot_patch_only (config : SwilibConfig) (swilib : Swilib) (sdklib : Sdklib)
    (d : List (Nat × Nat)) (id : Nat) (swi : SwiEntry)
    (h1 : getEntry sdklib.entries id = none) (h2 : getEntry swilib.entries id = some swi) :
    analyzeSlot config swilib sdklib d id =
      { unused := false, err := some ("Unknown function: " ++ swi.symbol),
        isMissing := false, good := false } := by
  simp only [analyzeSlot, h1, h2]

theorem analyzeLoop_total (config : SwilibConfig) (swilib : Swilib) (sdklib : Sdklib)
    (d : List (Nat × Nat)) : ∀ n, (analyzeLoop config swilib sdklib d n).total
      = (List.range n).countP (fun id => !(analyzeSlot config swilib sdklib d id).unused) := by
  intro n
  induction n with
  | zero => rfl
  | succ n ih =>
    rw [analyzeLoop, List.range_succ, List.countP_append]
    unfold accStep
    by_cases h : (analyzeSlot config swilib sdklib d n).unused <;>
      simp [h, ih, List.countP_cons]

theorem analyzeLoop_unused (config : SwilibConfig) (swilib : Swilib) (sdklib : Sdklib)
    (d : List (Nat × Nat)) : ∀ n, (analyzeLoop config swilib sdklib d n).unused
      = (List.range n).countP (fun id => (analyzeSlot config swilib sdklib d id).unused) := by
  intro n
  induction n with
  | zero => rfl
  | succ n ih =>
    rw [analyzeLoop, List.range_succ, List.countP_append]
    unfold accStep
    by_cases h : (analyzeSlot config swilib sdklib d n).unused <;>
      simp [h, ih, List.countP_cons]

theorem analyzeLoop_good (config : SwilibConfig) (swilib : Swilib) (sdklib : Sdklib)
    (d : List (Nat × Nat)) : ∀ n, (analyzeLoop config swilib sdklib d n).good
      = (List.range n).countP (fun id => (analyzeSlot config swilib sdklib d id).good) := by
  intro n
  induction n with
  | zero => rfl
  | succ n ih =>
    rw [analyzeLoop, List.range_succ, List.countP_append]
    unfold accStep
    by_cases h : (analyzeSlot config swilib sdklib d n).unused
    · have hf := analyzeSlot_unused_fields config swilib sdklib d n h
      simp [h, ih, List.countP_cons, hf.2.2]
    · by_cases hg : (analyzeSlot config swilib sdklib d n).good <;>
        simp [h, hg, ih, List.countP_cons]

theorem analyzeLoop_missing (config : SwilibConfig) (swilib : Swilib) (sdklib : Sdklib)
    (d : List (Nat × Nat)) : ∀ n, (analyzeLoop config swilib sdklib d n).missing
      = (List.range n).filter (fun id => (analyzeSlot config swilib sdklib d id).isMissing) := by
  intro n
  induction n with
  | zero => rfl
  | succ n ih =>
    rw [analyzeLoop, List.range_succ, List.filter_append]
    unfold accStep
    by_cases h : (analyzeSlot config swilib sdklib d n).unused
    · have hf := analyzeSlot_unused_fields config swilib sdklib d n h
      simp [h, ih, hf.2.1]
    · by_cases hm : (analyzeSlot config swilib sdklib d n).isMissing <;>
        simp [h, hm, ih]

theorem analyzeLoop_errors_length (config : SwilibConfig) (swilib : Swilib) (sdklib : Sdklib)
    (d : List (Nat × Nat)) : ∀ n, (analyzeLoop config swilib sdklib d n).errors.length
      = (List.range n).countP (fun id => (analyzeSlot config swilib sdklib d id).err.isSome) := by
  intro n
  induction n with
  | zero => rfl
  | succ n ih =>
    rw [analyzeLoop, List.range_succ, List.countP_append]
    unfold accStep
    by_cases h : (analyzeSlot config swilib sdklib d n).unused
    · have hf := analyzeSlot_unused_fields config swilib sdklib d n h
      simp [h, ih, List.countP_cons, hf.1]
    · rcases he : (analyzeSlot config swilib sdklib d n).err with _ | m <;>
        simp [h, he, ih, List.countP_cons]

theorem analyzeLoop_errors_lookup (config : SwilibConfig) (swilib : Swilib) (sdklib : Sdklib)
    (d : List (Nat × Nat)) : ∀ n id, (analyzeLoop config swilib sdklib d n).errors.lookup id
      = if id < n then (analyzeSlot config swilib sdklib d id).err else none := by
  intro n
  induction n with
  | zero => intro id; simp [analyzeLoop]
  | succ n ih =>
    intro id
    rw [analyzeLoop]
    unfold accStep
    by_cases h : (analyzeSlot config swilib sdklib d n).unused
    · have hf := analyzeSlot_unused_fields config swilib sdklib d n h
      simp only [h, if_true]
      rw [ih id]
      rcases Nat.lt_trichotomy id n with hlt | rfl | hgt
      · simp [hlt, Nat.lt_succ_of_lt hlt]
      · simp [Nat.lt_irrefl, Nat.lt_succ_self, hf.1]
      · have h1 : ¬ id < n := by omega
        have h2 : ¬ id < n + 1 := by omega
        simp [h1, h2]
    · have hfalse : (analyzeSlot config swilib sdklib d n).unused = false := by simpa using h
      simp only [hfalse, Bool.false_eq_true, if_false]
      rw [List.lookup_append, ih id]
      rcases Nat.lt_trichotomy id n with hlt | rfl | hgt
      · rcases he : (analyzeSlot config swilib sdklib d id).err with _ | m
        · simp only [hlt, if_true, Nat.lt_succ_of_lt hlt, Option.none_or]
          rcases hen : (analyzeSlot config swilib sdklib d n).err with _ | mn <;>
            simp [List.lookup, show (id == n) = false by simp; omega, he]
        · simp [hlt, Nat.lt_succ_of_lt hlt, he]
      · simp only [Nat.lt_irrefl, if_false, Option.none_or, Nat.lt_succ_self, if_true]
        rcases hen : (analyzeSlot config swilib sdklib d id).err with _ | mn <;>
          simp [List.lookup]
      · have h1 : ¬ id < n := by omega
        have h2 : ¬ id < n + 1 := by omega
        simp only [h1, if_false, h2, Option.none_or]
        rcases hen : (analyzeSlot config swilib sdklib d n).err with _ | mn <;>
          simp [List.lookup, show (id == n) = false by simp; omega]

theorem countP_add_countP_not {α : Type} (p : α → Bool) (l : List α) :
    l.countP p + l.countP (fun a => !p a) = l.length := by
  induction l with
  | nil => rfl
  | cons x t ih => by_cases h : p x <;> simp [List.countP_cons, h] <;> omega

theorem analyzeSlot_unused_not_present (config : SwilibConfig) (swilib : Swilib)
    (sdklib : Sdklib) (d : List (Nat × Nat)) (id : Nat) :
    (analyzeSlot config swilib sdklib d id).unused
      = !((getEntry sdklib.entries id).isSome || (getEntry swilib.entries id).isSome) := by
  rw [analyzeSlot_unused_eq]
  rcases getEntry sdklib.entries id with _ | a <;> rcases getEntry swilib.entries id with _ | b <;> rfl

/-- C3: for every analysis run, `stat.total + stat.unused` equals
`max(catalogSize, patchSize)`, where a slot counts toward `total` exactly when
it has a catalog entry or a patch entry and toward `unused` otherwise. -/
theorem c3_total_plus_unused (config : SwilibConfig) (swilib : Swilib) (sdklib : Sdklib) :
    (analyzeSwilib config swilib sdklib).stat.total + (analyzeSwilib config swilib sdklib).stat.unused
        = max sdklib.entries.length swilib.entries.length ∧
      (analyzeSwilib config swilib sdklib).stat.total
        = (List.range (max sdklib.entries.length swilib.entries.length)).countP
            (fun id => (getEntry sdklib.entries id).isSome || (getEntry swilib.entries id).isSome) ∧
      (analyzeSwilib config swilib sdklib).stat.unused
        = (List.range (max sdklib.entries.length swilib.entries.length)).countP
            (fun id => !((getEntry sdklib.entries id).isSome || (getEntry swilib.entries id).isSome)) := by
  have htot : (analyzeSwilib config swilib sdklib).stat.total
      = (List.range (max sdklib.entries.length swilib.entries.length)).countP
          (fun id => (getEntry sdklib.entries id).isSome || (getEntry swilib.entries id).isSome) := by
    show (analyzeLoop config swilib sdklib [] (max sdklib.entries.length swilib.entries.length)).total = _
    rw [analyzeLoop_total]
    apply List.countP_congr
    intro id _
    rw [analyzeSlot_unused_not_present, Bool.not_not]
  have hun : (analyzeSwilib config swilib sdklib).stat.unused
      = (List.range (max sdklib.entries.length swilib.entries.length)).countP
          (fun id => !((getEntry sdklib.entries id).isSome || (getEntry swilib.entries id).isSome)) := by
    show (analyzeLoop config swilib sdklib [] (max sdklib.entries.length swilib.entries.length)).unused = _
    rw [analyzeLoop_unused]
    apply List.countP_congr
    intro id _
    rw [analyzeSlot_unused_not_present]
  refine ⟨?_, htot, hun⟩
  rw [htot, hun, countP_add_countP_not, List.length_range]

theorem countP_sum_three {α : Type} (p q r s : α → Bool) (l : List α)
    (h : ∀ a ∈ l, (if p a then 1 else 0) + (if q a then 1 else 0) + (if r a then 1 else 0)
      = (if s a then 1 else 0)) :
    l.countP p + l.countP q + l.countP r = l.countP s := by
  induction l with
  | nil => rfl
  | cons x t ih =>
    have hx := h x (List.mem_cons_self x t)
    have ih2 := ih (fun a ha => h a (List.mem_cons_of_mem x ha))
    simp only [List.countP_cons]
    omega

theorem analyzeSlot_contribution (config : SwilibConfig) (swilib : Swilib) (sdklib : Sdklib)
    (d : List (Nat × Nat)) (id : Nat)
    (H : ∀ sdk, getEntry sdklib.entries id = some sdk → getEntry swilib.entries id = none →
         sdk.builtin = none ∧ pairError (getFunctionPairs config) swilib id none = none)
    (h : (analyzeSlot config swilib sdklib d id).unused = false) :
    (if (analyzeSlot config swilib sdklib d id).err.isSome then 1 else 0)
        + (if (analyzeSlot config swilib sdklib d id).isMissing then 1 else 0)
        + (if (analyzeSlot config swilib sdklib d id).good then 1 else 0) = 1 := by
  rcases h1 : getEntry sdklib.entries id with _ | sdk
  · rcases h2 : getEntry swilib.entries id with _ | swi
    · rw [analyzeSlot_unused_eq, h1, h2] at h
      simp at h
    · rw [analyzeSlot_patch_only config swilib sdklib d id swi h1 h2]
      simp
  · rcases h2 : getEntry swilib.entries id with _ | swi
    · obtain ⟨hb, hp⟩ := H sdk h1 h2
      rw [analyzeSlot_catalog_only config swilib sdklib d id sdk h1 h2]
      simp [hb, hp]
    · obtain ⟨_, hm, hg⟩ := analyzeSlot_both_present config swilib sdklib d id sdk swi h1 h2
      rw [hm, hg]
      rcases he : (analyzeSlot config swilib sdklib d id).err with _ | m <;> simp [he]

/-- C2 counterexample: a catalog-only slot whose entry carries a reservation
list (for a different platform) is counted in `total` but in none of `good`,
`bad`, `missing`, so the claimed identity fails on this run. -/
theorem c2_stat_identity_fails :
    (analyzeSwilib emptyConfig exC2Swi exC2Sdk).stat.good
        + (analyzeSwilib emptyConfig exC2Swi exC2Sdk).stat.bad
        + (analyzeSwilib emptyConfig exC2Swi exC2Sdk).stat.missing
      ≠ (analyzeSwilib emptyConfig exC2Swi exC2Sdk).stat.total := by
  decide

/-- C2 amended: `stat.good + stat.bad + stat.missing = stat.total` holds for
every run in which each slot having a catalog entry but no patch entry
carries no reservation (`builtin`) list and triggers no pairing-group error.
(The unamended identity fails: a reserved absent slot contributes to `total`
only, and an absent slot with a pairing-group mismatch contributes to both
`bad` and `missing`.) -/
theorem c2_stat_identity_amended (config : SwilibConfig) (swilib : Swilib) (sdklib : Sdklib)
    (H : ∀ id sdk, getEntry sdklib.entries id = some sdk → getEntry swilib.entries id = none →
         sdk.builtin = none ∧ pairError (getFunctionPairs config) swilib id none = none) :
    (analyzeSwilib config swilib sdklib).stat.good + (analyzeSwilib config swilib sdklib).stat.bad
        + (analyzeSwilib config swilib sdklib).stat.missing
      = (analyzeSwilib config swilib sdklib).stat.total := by
  show (analyzeLoop config swilib sdklib [] (max sdklib.entries.length swilib.entries.length)).good
      + (analyzeLoop config swilib sdklib [] (max sdklib.entries.length swilib.entries.length)).errors.length
      + (analyzeLoop config swilib sdklib [] (max sdklib.entries.length swilib.entries.length)).missing.length
    = (analyzeLoop config swilib sdklib [] (max sdklib.entries.length swilib.entries.length)).total
  rw [analyzeLoop_good, analyzeLoop_errors_length, analyzeLoop_missing, analyzeLoop_total,
    ← List.countP_eq_length_filter]
  apply countP_sum_three
  intro id _
  by_cases hu : (analyzeSlot config swilib sdklib [] id).unused
  · obtain ⟨he, hm, hg⟩ := analyzeSlot_unused_fields config swilib sdklib [] id hu
    simp [he, hm, hg, hu]
  · have hu2 : (analyzeSlot config swilib sdklib [] id).unused = false := by simpa using hu
    have hc := analyzeSlot_contribution config swilib sdklib [] id (fun sdk ha hb => H id sdk ha hb) hu2
    simp only [hu2, Bool.not_false, if_true]
    omega

/-- C2 witness: the amended identity at a run with one catalog-only,
unreserved slot. -/
theorem c2_stat_identity_amended_witness :
    (analyzeSwilib emptyConfig { platform := "ELKA", entries := [] } exPlainSdk).stat.good
        + (analyzeSwilib emptyConfig { platform := "ELKA", entries := [] } exPlainSdk).stat.bad
        + (analyzeSwilib emptyConfig { platform := "ELKA", entries := [] } exPlainSdk).stat.missing
      = (analyzeSwilib emptyConfig { platform := "ELKA", entries := [] } exPlainSdk).stat.total := by
  apply c2_stat_identity_amended
  intro id sdk h1 h2
  have hlt := getEntry_eq_some_lt _ _ _ h1
  have h0 : id = 0 := by
    simp only [exPlainSdk, List.length_cons, List.length_nil] at hlt
    omega
  subst h0
  have hsdk : sdk = { id := 0, symbol := "A", type := .FUNCTION, aliases := [] } := by
    simp [exPlainSdk, getEntry] at h1
    exact h1.symm
  subst hsdk
  exact ⟨rfl, rfl⟩

theorem dupError_nil (fp : Nat → Option (List Nat)) (sdklib : Sdklib) (swi : SwiEntry) :
    dupError [] fp sdklib swi = none := by
  unfold dupError
  split
  · simp [List.lookup]
  · rfl

/-- C8 counterexample: slot 0 has a catalog entry reserved only on platform
`NSG`, no patch entry, and the run analyzes platform `ELKA`; the claim says the
slot is still recorded as missing, but the code records nothing (it tests only
whether a reservation list exists at all). -/
theorem c8_reserved_elsewhere_not_missing :
    (analyzeSwilib emptyConfig exC2Swi exC2Sdk).missing = [] ∧
      getEntry exC2Sdk.entries 0
        = some { id := 0, symbol := "A", type := .FUNCTION, aliases := [], builtin := some ["NSG"] } ∧
      getEntry exC2Swi.entries 0 = none ∧
      exC2Swi.platform = "ELKA" ∧
      builtinIncludes
        { id := 0, symbol := "A", type := .FUNCTION, aliases := [], builtin := some ["NSG"] }
        "ELKA" = false := by
  refine ⟨rfl, rfl, rfl, rfl, rfl⟩

/-- C8 amended: a slot with a catalog entry and no patch entry is recorded in
the `missing` list if and only if the catalog entry carries no reservation
(`builtin`) list at all — the platform under analysis is not consulted, so a
slot reserved only on other platforms is *not* recorded as missing.  Moreover
no later per-slot check produces a verdict for such an absent slot: its
recorded error is exactly the result of the (earlier) pairing-group check,
`none` whenever that check does not fire. -/
theorem c8_missing_iff_no_builtin (config : SwilibConfig) (swilib : Swilib) (sdklib : Sdklib)
    (id : Nat) (sdk : SdkEntry)
    (h1 : getEntry sdklib.entries id = some sdk) (h2 : getEntry swilib.entries id = none) :
    (id ∈ (analyzeSwilib config swilib sdklib).missing ↔ sdk.builtin = none) ∧
      (analyzeSwilib config swilib sdklib).errors.lookup id
        = pairError (getFunctionPairs config) swilib id none := by
  constructor
  · show id ∈ (analyzeLoop config swilib sdklib []
        (max sdklib.entries.length swilib.entries.length)).missing ↔ _
    rw [analyzeLoop_missing, List.mem_filter]
    constructor
    · rintro ⟨-, hm⟩
      rw [analyzeSlot_catalog_only config swilib sdklib [] id sdk h1 h2] at hm
      simpa [Option.isNone_iff_eq_none] using hm
    · intro hb
      refine ⟨List.mem_range.mpr ?_, ?_⟩
      · exact lt_of_lt_of_le (getEntry_eq_some_lt _ _ _ h1) (le_max_left _ _)
      · rw [analyzeSlot_catalog_only config swilib sdklib [] id sdk h1 h2]
        simp [hb]
  · show (analyzeLoop config swilib sdklib []
        (max sdklib.entries.length swilib.entries.length)).errors.lookup id = _
    rw [analyzeLoop_errors_lookup,
      if_pos (lt_of_lt_of_le (getEntry_eq_some_lt _ _ _ h1) (le_max_left _ _)),
      analyzeSlot_catalog_only config swilib sdklib [] id sdk h1 h2]

/-- C8 witness: the amended criterion applied to a catalog-only slot with no
reservation list — the slot is recorded as missing, and no check (the pairing
check included, since no group is configured) records any verdict for it. -/
theorem c8_missing_iff_no_builtin_witness :
    0 ∈ (analyzeSwilib emptyConfig { platform := "ELKA", entries := [] } exPlainSdk).missing ∧
      (analyzeSwilib emptyConfig { platform := "ELKA", entries := [] } exPlainSdk).errors.lookup 0
        = none :=
  ⟨(c8_missing_iff_no_builtin emptyConfig { platform := "ELKA", entries := [] } exPlainSdk 0
      { id := 0, symbol := "A", type := .FUNCTION, aliases := [] } rfl rfl).1.mpr rfl,
   by
    rw [(c8_missing_iff_no_builtin emptyConfig { platform := "ELKA", entries := [] } exPlainSdk 0
      { id := 0, symbol := "A", type := .FUNCTION, aliases := [] } rfl rfl).2]
    rfl⟩

/-- C9 counterexample: slots 0 and 1 form a configured pairing group, slot 0
carries `0xA0001000` and slot 1 a different value, but slot 1 has no catalog
entry, so its verdict is `Unknown function` — not the must-equal-sibling
error the claim promises for every such run. -/
theorem c9_unknown_overrides_pair_error :
    (analyzeSwilib exC9Cfg exC9Swi exC9Sdk).errors.lookup 1 = some "Unknown function: B" ∧
      "Unknown function: B"
        ≠ pairErrorMessage { id := 0, value := 0xA0001000, symbol := "A", type := .POINTER_TO_FLASH } := by
  refine ⟨rfl, by decide⟩

/-- C9 amended: if slot `A` is the *first* member of the configured group,
slot `B` has a catalog entry, and `B` passes the reservation, platform and
name checks, then patching `A` with `0xA0001000` and `B` with a different
value makes `B`'s verdict the must-equal-sibling error. -/
theorem c9_pair_mismatch_error (config : SwilibConfig) (swilib : Swilib) (sdklib : Sdklib)
    (B : Nat) (p : List Nat) (A : Nat) (master swiB : SwiEntry) (sdkB : SdkEntry)
    (hp : getFunctionPairs config B = some p)
    (hA : p.head? = some A)
    (hmaster : getEntry swilib.entries A = some master)
    (_hval : master.value = 0xA0001000)
    (hB : getEntry swilib.entries B = some swiB)
    (hne : swiB.value ≠ master.value)
    (hsdk : getEntry sdklib.entries B = some sdkB)
    (hbuiltin : builtinIncludes sdkB swilib.platform = false)
    (hres : config.reserved.contains B = false)
    (hplat : platformExcluded sdkB swilib.platform = false)
    (hname : isSameFunctions config (some swiB) (some sdkB) = true) :
    (analyzeSwilib config swilib sdklib).errors.lookup B = some (pairErrorMessage master) := by
  have hpe : pairError (getFunctionPairs config) swilib B (some swiB)
      = some (pairErrorMessage master) := by
    unfold pairError
    simp only [hp, hA, Option.some_bind, hmaster]
    rw [if_pos (fun hcc => hne hcc.symm)]
  show (analyzeLoop config swilib sdklib []
      (max sdklib.entries.length swilib.entries.length)).errors.lookup B = _
  rw [analyzeLoop_errors_lookup,
    if_pos (lt_of_lt_of_le (getEntry_eq_some_lt _ _ _ hB) (le_max_right _ _))]
  simp only [analyzeSlot, hsdk, hB, hbuiltin, hres, hplat, hname, Bool.not_true,
    Bool.false_eq_true, if_false, dupError_nil, hpe]
  simp

/-- C9 witness: the amended statement at a concrete run — slot 1 (paired with
slot 0, which carries `0xA0001000`) receives the must-equal-sibling error. -/
theorem c9_pair_mismatch_error_witness :
    (analyzeSwilib exC9Cfg exC9Swi exC9wSdk).errors.lookup 1
      = some (pairErrorMessage
          { id := 0, value := 0xA0001000, symbol := "A", type := .POINTER_TO_FLASH }) :=
  c9_pair_mismatch_error exC9Cfg exC9Swi exC9wSdk 1 [0, 1] 0
    { id := 0, value := 0xA0001000, symbol := "A", type := .POINTER_TO_FLASH }
    { id := 1, value := 0xA0001004, symbol := "B", type := .POINTER_TO_FLASH }
    { id := 1, symbol := "B", type := .FUNCTION, aliases := [] }
    rfl rfl rfl rfl rfl (by decide) rfl rfl rfl rfl rfl

theorem checkTypeConsistency_eq_specCompat (swi : SwiEntry) (sdk : SdkEntry) :
    checkTypeConsistency swi sdk
      = (if specCompat sdk.type swi.type then none else some (typeMismatchMessage swi sdk)) := by
  rcases sdk with ⟨sid, ssym, sty, sal, spl, sbl⟩
  rcases swi with ⟨wid, wval, wsym, wty, wcm⟩
  cases sty <;> cases wty <;> simp [checkTypeConsistency, specCompat]

/-- C7: for a slot that reaches the type-consistency check (both entries
present, earlier checks passed, no pending pairing error), the recorded error
is the type-mismatch error exactly when the (catalog kind, patch valueKind)
pair is outside the fixed compatibility table and the valueKind is not
`Undefined` (which is exempt); the slot is counted good exactly otherwise. -/
theorem c7_type_mismatch_iff_incompatible (config : SwilibConfig) (swilib : Swilib)
    (sdklib : Sdklib) (id : Nat) (sdk : SdkEntry) (swi : SwiEntry)
    (h1 : getEntry sdklib.entries id = some sdk)
    (h2 : getEntry swilib.entries id = some swi)
    (hb : builtinIncludes sdk swilib.platform = false)
    (hr : config.reserved.contains id = false)
    (hpl : platformExcluded sdk swilib.platform = false)
    (hn : isSameFunctions config (some swi) (some sdk) = true)
    (hpair : pairError (getFunctionPairs config) swilib id (some swi) = none) :
    (analyzeSwilib config swilib sdklib).errors.lookup id
        = (if swi.type ≠ SwiValueType.UNDEFINED ∧ specCompat sdk.type swi.type = false
           then some (typeMismatchMessage swi sdk) else none) ∧
      (analyzeSlot config swilib sdklib [] id).good
        = (swi.type == SwiValueType.UNDEFINED || specCompat sdk.type swi.type) := by
  have hslot : (analyzeSlot config swilib sdklib [] id).err
      = (if swi.type ≠ SwiValueType.UNDEFINED ∧ specCompat sdk.type swi.type = false
         then some (typeMismatchMessage swi sdk) else none) := by
    simp only [analyzeSlot, h1, h2, hb, hr, hpl, hn, Bool.not_true,
      Bool.false_eq_true, if_false, dupError_nil, hpair]
    by_cases hub : swi.type = SwiValueType.UNDEFINED
    · simp [hub]
    · rw [checkTypeConsistency_eq_specCompat]
      by_cases hc : specCompat sdk.type swi.type <;> simp [hub, hc]
  constructor
  · show (analyzeLoop config swilib sdklib []
        (max sdklib.entries.length swilib.entries.length)).errors.lookup id = _
    rw [analyzeLoop_errors_lookup,
      if_pos (lt_of_lt_of_le (getEntry_eq_some_lt _ _ _ h2) (le_max_right _ _)), hslot]
  · obtain ⟨-, -, hg⟩ := analyzeSlot_both_present config swilib sdklib [] id sdk swi h1 h2
    rw [hg, hslot]
    by_cases hub : swi.type = SwiValueType.UNDEFINED
    · simp [hub]
    · by_cases hc : specCompat sdk.type swi.type <;> simp [hub, hc]

/-- C7 witness: catalog slot 5 is `Function`-kind, its patch entry has
`valueKind = Value` — the analyzer reports the type-mismatch error for slot 5
and does not count it as good. -/
theorem c7_type_mismatch_iff_incompatible_witness :
    (analyzeSwilib emptyConfig exC7Swi exC7Sdk).errors.lookup 5
        = some (typeMismatchMessage
            { id := 5, value := 0x1234, symbol := "F", type := .VALUE }
            { id := 5, symbol := "F", type := .FUNCTION, aliases := [] }) ∧
      (analyzeSlot emptyConfig exC7Swi exC7Sdk [] 5).good = false := by
  obtain ⟨ha, hg⟩ := c7_type_mismatch_iff_incompatible emptyConfig exC7Swi exC7Sdk 5
    { id := 5, symbol := "F", type := .FUNCTION, aliases := [] }
    { id := 5, value := 0x1234, symbol := "F", type := .VALUE }
    rfl rfl rfl rfl rfl rfl rfl
  exact ⟨by rw [ha]; rfl, by rw [hg]; rfl⟩

theorem charToLower_eq_asciiLowerChar (c : Char) : Char.toLower c = asciiLowerChar c := by
  unfold Char.toLower asciiLowerChar
  have h1 : ('A' ≤ c) ↔ 65 ≤ c.toNat := by
    rw [Char.le_def, UInt32.le_def, BitVec.le_def]
    rfl
  have h2 : (c ≤ 'Z') ↔ c.toNat ≤ 90 := by
    rw [Char.le_def, UInt32.le_def, BitVec.le_def]
    rfl
  show (if 65 ≤ c.toNat ∧ c.toNat ≤ 90 then Char.ofNat (c.toNat + 32) else c)
      = if 'A' ≤ c ∧ c ≤ 'Z' then Char.ofNat (c.toNat + 32) else c
  by_cases h : 'A' ≤ c ∧ c ≤ 'Z'
  · rw [if_pos h, if_pos ⟨h1.mp h.1, h2.mp h.2⟩]
  · rw [if_neg h, if_neg (fun hc => h ⟨h1.mpr hc.1, h2.mpr hc.2⟩)]

theorem jsToLower_beq_eqUpToAsciiCase (w s : String) :
    (jsToLower w == jsToLower s) = eqUpToAsciiCase w s := by
  unfold jsToLower eqUpToAsciiCase
  rw [show Char.toLower = asciiLowerChar from funext charToLower_eq_asciiLowerChar,
    Bool.eq_iff_iff]
  simp [String.ext_iff]

theorem isStrInArray_iff (l : List String) (s : String) :
    isStrInArray (some l) s = true ↔ ∃ w ∈ l, eqUpToAsciiCase w s = true := by
  unfold isStrInArray
  rw [List.any_eq_true]
  constructor
  · rintro ⟨w, hw, hb⟩
    exact ⟨w, hw, by rw [← jsToLower_beq_eqUpToAsciiCase]; exact hb⟩
  · rintro ⟨w, hw, hb⟩
    exact ⟨w, hw, by rw [jsToLower_beq_eqUpToAsciiCase]; exact hb⟩

theorem isStrInArray_opt_iff (o : Option (List String)) (s : String) :
    isStrInArray o s = true ↔ ∃ w ∈ o.getD [], eqUpToAsciiCase w s = true := by
  rcases o with _ | l
  · simp [isStrInArray]
  · simpa using isStrInArray_iff l s

/-- C10: the name-equivalence check passes exactly when the slot ids agree and
either the patch symbol equals the catalog's canonical symbol *exactly*
(case-sensitively), or it matches some catalog alias or some externally
configured alias *up to ASCII letter case*. -/
theorem c10_alias_ci_canonical_exact (config : SwilibConfig) (swi : SwiEntry) (sdk : SdkEntry) :
    isSameFunctions config (some swi) (some sdk) = true ↔
      sdk.id = swi.id ∧
        (sdk.symbol = swi.symbol ∨
          (∃ w ∈ sdk.aliases, eqUpToAsciiCase w swi.symbol = true) ∨
          (∃ w ∈ (config.aliases sdk.id).getD [], eqUpToAsciiCase w swi.symbol = true)) := by
  unfold isSameFunctions
  by_cases hid : sdk.id = swi.id
  · simp only [hid, ne_eq, not_true_eq_false, if_false]
    by_cases hsym : sdk.symbol = swi.symbol
    · simp [hsym, hid]
    · have hbeq : (sdk.symbol == swi.symbol) = false := by simp [hsym]
      simp only [hbeq, Bool.false_eq_true, if_false]
      by_cases ha : isStrInArray (some sdk.aliases) swi.symbol = true
      · simp [ha, hid, (isStrInArray_iff _ _).mp ha]
      · have ha2 : isStrInArray (some sdk.aliases) swi.symbol = false := by simpa using ha
        simp only [ha2, Bool.false_eq_true, if_false]
        by_cases hb : isStrInArray (config.aliases sdk.id) swi.symbol = true
        · rw [hid] at hb
          simp [hb, hid, (isStrInArray_opt_iff _ _).mp hb]
        · have hb2 : isStrInArray (config.aliases sdk.id) swi.symbol = false := by simpa using hb
          have hnA : ¬ ∃ w ∈ sdk.aliases, eqUpToAsciiCase w swi.symbol = true := by
            rw [← isStrInArray_iff]
            simp [ha2]
          have hnB : ¬ ∃ w ∈ (config.aliases sdk.id).getD [], eqUpToAsciiCase w swi.symbol = true := by
            rw [← isStrInArray_opt_iff]
            simp [hb2]
          rw [hid] at hb2 hnB
          simp [hb2, hsym, hnA, hnB]
  · simp [hid]

theorem findSome?_forall {α β : Type} (l : List α) (f : α → Option β) (P : β → Prop)
    (h : ∀ a b, f a = some b → P b) : ∀ b, l.findSome? f = some b → P b := by
  intro b hfs
  obtain ⟨a, -, hab⟩ := List.exists_of_findSome?_eq_some hfs
  exact h a b hab

theorem string_mk_ne_empty (l : List Char) (h : ¬ l.isEmpty) : String.mk l ≠ "" := by
  intro he
  rw [show ("" : String) = String.mk [] from rfl, String.ext_iff] at he
  simp at he
  simp [he] at h

theorem matchTailParen_ne_empty (l : List Char) (s : String)
    (h : matchTailParen l = some s) : s ≠ "" := by
  unfold matchTailParen at h
  refine findSome?_forall _ _ (fun t => t ≠ "") ?_ s h
  intro rest b hb
  refine findSome?_forall _ _ (fun t => t ≠ "") ?_ b hb
  intro pn b2 hb2
  refine findSome?_forall _ _ (fun t => t ≠ "") ?_ b2 hb2
  intro ps b3 hb3
  by_cases hc : ps.2.head? = some '('
  · rw [if_pos hc] at hb3
    by_cases he : pn.1.isEmpty
    · rw [if_pos he] at hb3
      exact absurd hb3 (by simp)
    · rw [if_neg he] at hb3
      obtain rfl := Option.some_injective _ hb3.symm
      exact string_mk_ne_empty _ he
  · rw [if_neg hc] at hb3
    exact absurd hb3 (by simp)

theorem matchTailEnd_ne_empty (l : List Char) (s : String)
    (h : matchTailEnd l = some s) : s ≠ "" := by
  unfold matchTailEnd at h
  refine findSome?_forall _ _ (fun t => t ≠ "") ?_ s h
  intro rest b hb
  by_cases he : rest.isEmpty
  · rw [if_pos he] at hb
    exact absurd hb (by simp)
  · rw [if_neg he] at hb
    by_cases hw : rest.all isWordChar
    · rw [if_pos hw] at hb
      obtain rfl := Option.some_injective _ hb.symm
      exact string_mk_ne_empty _ he
    · rw [if_neg hw] at hb
      exact absurd hb (by simp)

theorem matchPattern1_ne_empty (l : List Char) (s : String)
    (h : matchPattern1 l = some s) : s ≠ "" := by
  unfold matchPattern1 at h
  refine findSome?_forall _ _ (fun t => t ≠ "") ?_ s h
  intro l1 b hb
  refine findSome?_forall _ _ (fun t => t ≠ "") ?_ b hb
  intro ph b2 hb2
  refine findSome?_forall _ _ (fun t => t ≠ "") ?_ b2 hb2
  intro l2 b3 hb3
  exact matchTailParen_ne_empty _ _ hb3

theorem matchPattern2_ne_empty (l : List Char) (s : String)
    (h : matchPattern2 l = some s) : s ≠ "" := by
  unfold matchPattern2 at h
  refine findSome?_forall _ _ (fun t => t ≠ "") ?_ s h
  intro l1 b hb
  refine findSome?_forall _ _ (fun t => t ≠ "") ?_ b hb
  intro ph b2 hb2
  refine findSome?_forall _ _ (fun t => t ≠ "") ?_ b2 hb2
  intro l2 b3 hb3
  exact matchTailEnd_ne_empty _ _ hb3

theorem matchPattern3_ne_empty (l : List Char) (s : String)
    (h : matchPattern3 l = some s) : s ≠ "" := by
  unfold matchPattern3 at h
  split at h
  · dsimp only at h
    split at h
    · exact absurd h (by simp)
    · split at h
      · obtain rfl := Option.some_injective _ h.symm
        intro habs
        rw [String.ext_iff] at habs
        simp at habs
      · exact absurd h (by simp)
  · exact absurd h (by simp)

theorem parseSwilibFuncName_ne_empty (c s : String)
    (h : parseSwilibFuncName c = some s) : s ≠ "" := by
  unfold parseSwilibFuncName at h
  rcases h1 : matchPattern1 (cleanComment c) with _ | s1
  · rw [h1] at h
    rcases h2 : matchPattern2 (cleanComment c) with _ | s2
    · rw [h2] at h
      exact matchPattern3_ne_empty _ _ h
    · rw [h2] at h
      obtain rfl := Option.some_injective _ h.symm
      exact matchPattern2_ne_empty _ _ h2
  · rw [h1] at h
    obtain rfl := Option.some_injective _ h.symm
    exact matchPattern1_ne_empty _ _ h1

theorem symbol_falsy_iff (c : String) :
    ((parseSwilibFuncName c).getD "" = "") ↔ (parseSwilibFuncName c).isNone = true := by
  rcases hp : parseSwilibFuncName c with _ | s
  · simp
  · simp [parseSwilibFuncName_ne_empty c s hp]

theorem pRun_isOk_iff (options : SwilibParserOptions) :
    ∀ (evs : List VkpEvent) (st : PState) (seenNonzero seenAny seenZero : Bool),
      st.ended = seenZero →
      st.offset.isSome = seenNonzero →
      (∀ v, st.offset = some v → v ≠ 0) →
      seenAny = (seenZero || seenNonzero) →
      isOkE (pRun options st evs) = !(violationFrom evs seenNonzero seenAny seenZero) := by
  intro evs
  induction evs with
  | nil =>
    intro st sn sa sz _ _ _ _
    rfl
  | cons ev evs ih =>
    intro st sn sa sz h1 h2 h3 h4
    cases ev with
    | offset v =>
      by_cases hv : v = 0
      · subst hv
        rw [pRun, violationFrom]
        simp only [pStep, if_pos rfl]
        exact ih { st with ended := true } sn true true rfl h2 h3 (by simp)
      · rw [pRun, violationFrom]
        simp only [pStep, if_neg hv]
        rcases ho : st.offset with _ | w
        · have hsn : sn = false := by rw [← h2, ho]; rfl
          subst hsn
          simp only [ho, Option.isSome_none, Bool.false_eq_true, if_false]
          exact ih { st with offset := some v } true true sz h1 rfl
            (fun w hw => by
              injection hw with hw2
              exact hw2 ▸ hv)
            (by simp)
        · have hsn : sn = true := by rw [← h2, ho]; rfl
          subst hsn
          simp only [ho, Option.isSome_some, if_pos rfl, if_true]
          rfl
    | patchData a b c =>
      rw [pRun, violationFrom]
      by_cases hsz : sz = true
      · have hend : st.ended = true := by rw [h1, hsz]
        simp only [pStep, hend, if_pos rfl, hsz, if_true]
        rfl
      · have hsz2 : sz = false := by simpa using hsz
        subst hsz2
        have hend : st.ended = false := h1
        simp only [pStep, hend, Bool.false_eq_true, if_false]
        rcases ho : st.offset with _ | w
        · have hsn : sn = false := by rw [← h2, ho]; rfl
          have hsa : sa = false := by rw [h4, hsn]; rfl
          subst hsn
          subst hsa
          simp only [ho, Option.getD_none, if_pos rfl, Bool.not_false, if_true]
          rfl
        · have hsn : sn = true := by rw [← h2, ho]; rfl
          have hsa : sa = true := by rw [h4, hsn]; simp
          subst hsn
          subst hsa
          have hw : w ≠ 0 := h3 w ho
          simp only [ho, Option.getD_some, if_neg hw, Bool.not_true, Bool.false_eq_true, if_false]
          by_cases hb : b.length ≠ 4
          · simp only [if_pos hb]
            rfl
          · simp only [if_neg hb]
            by_cases hal : a % 4 ≠ 0
            · simp only [if_pos hal]
              rfl
            · simp only [if_neg hal]
              by_cases hsym : (parseSwilibFuncName c).getD "" = ""
              · have hnone : (parseSwilibFuncName c).isNone = true := (symbol_falsy_iff c).mp hsym
                simp only [if_pos hsym, hnone, if_true]
                rfl
              · have hnone : (parseSwilibFuncName c).isNone = false := by
                  rcases hpn : parseSwilibFuncName c with _ | s
                  · rw [hpn] at hsym
                    exact absurd rfl hsym
                  · rfl
                simp only [if_neg hsym, hnone, Bool.false_eq_true, if_false]
                exact ih _ true true false rfl rfl
                  (fun u hu => by
                    injection hu with he
                    exact he ▸ h3 w ho) rfl

/-- C6: `parseSwilibPatch` succeeds exactly when the directive stream is free
of the six structural violations (second non-zero offset; data after a
zero-valued terminator; data before any offset; value not 4 bytes; unaligned
address; comment matching none of the three patterns); otherwise it raises a
fatal parse error. -/
theorem c6_parse_error_iff (events : List VkpEvent) (options : SwilibParserOptions) :
    isOkE (parseSwilibPatch events options) = !structuralViolation events := by
  have h := pRun_isOk_iff options events { offset := none, entries := [], ended := false }
    false false false rfl rfl (fun v hv => by cases hv) rfl
  unfold parseSwilibPatch structuralViolation
  rcases hr : pRun options { offset := none, entries := [], ended := false } events with e | st <;>
    rw [hr] at h <;> simpa using h

theorem pStep_patchData_ok (options : SwilibParserOptions) (st : PState) (a : Nat)
    (b : List Nat) (c s : String) (hend : st.ended = false) (hoff : st.offset.getD 0 ≠ 0)
    (hb : b.length = 4) (ha : a % 4 = 0) (hs : parseSwilibFuncName c = some s) :
    pStep options st (.patchData a b c)
      = .ok { st with entries := setEntry st.entries (a / 4) (mkParsedEntry options a b c s) } := by
  simp only [pStep, hend, Bool.false_eq_true, if_false, hs, Option.getD_some]
  rw [if_neg hoff, if_neg (by omega : ¬ b.length ≠ 4), if_neg (by omega : ¬ a % 4 ≠ 0),
    if_neg (parseSwilibFuncName_ne_empty _ _ hs)]

theorem getEntry_setEntry_self {α : Type} (l : List (Option α)) (i : Nat) (x : α) :
    getEntry (setEntry l i x) i = some x := by
  unfold getEntry setEntry
  by_cases h : i < l.length
  · rw [if_pos h, List.getD_eq_getElem?_getD, List.getElem?_set_self (by simpa using h)]
    rfl
  · rw [if_neg h, List.getD_eq_getElem?_getD,
      List.getElem?_set_self (by simp [List.length_replicate]; omega)]
    rfl

/-- C5 counterexample: two data directives assign slot 0 (same byte address);
`parseSwilibPatch` raises no error and returns a table holding the *second*
directive's value and symbol — the later assignment silently replaced the
earlier one. -/
theorem c5_duplicate_slot_overwrites :
    parseSwilibPatch exC5Events {} =
      .ok { offset := 0x1000, platform := "",
            entries := [some { id := 0, value := 0xA0005678, symbol := "bar",
                               type := .POINTER_TO_FLASH }] } := by
  rfl

/-- C5 amended: duplicate assignment to a slot is *not* a parse error; when
both directives are otherwise valid, parsing succeeds and the returned table
carries the later directive's value and symbol for that slot. -/
theorem c5_later_assignment_wins (o a2 : Nat) (b1 b2 : List Nat) (c1 c2 s1 s2 : String)
    (cm : Bool) (ho : o ≠ 0) (ha : a2 % 4 = 0) (hb1 : b1.length = 4) (hb2 : b2.length = 4)
    (hs1 : parseSwilibFuncName c1 = some s1) (hs2 : parseSwilibFuncName c2 = some s2) :
    ∃ res : Swilib,
      parseSwilibPatch [.offset o, .patchData a2 b1 c1, .patchData a2 b2 c2]
          { comments := cm } = .ok res ∧
        (getEntry res.entries (a2 / 4)).map (fun e => e.value) = some (readUInt32LE b2) ∧
        (getEntry res.entries (a2 / 4)).map (fun e => e.symbol) = some s2 := by
  have h1 : pStep { comments := cm } { offset := none, entries := [], ended := false }
      (.offset o) = .ok { offset := some o, entries := [], ended := false } := by
    simp [pStep, ho]
  have h2 := pStep_patchData_ok { comments := cm }
    { offset := some o, entries := [], ended := false } a2 b1 c1 s1 rfl (by simpa using ho)
    hb1 ha hs1
  have h3 := pStep_patchData_ok { comments := cm }
    { offset := some o,
      entries := (setEntry [] (a2 / 4) (mkParsedEntry { comments := cm } a2 b1 c1 s1)),
      ended := false } a2 b2 c2 s2 rfl (by simpa using ho) hb2 ha hs2
  refine ⟨{ offset := o, platform := "",
            entries := (setEntry (setEntry [] (a2 / 4) (mkParsedEntry { comments := cm } a2 b1 c1 s1))
              (a2 / 4) (mkParsedEntry { comments := cm } a2 b2 c2 s2)) }, ?_, ?_, ?_⟩
  · unfold parseSwilibPatch
    simp only [pRun, h1, h2, h3, Option.getD_some]
  · rw [getEntry_setEntry_self]
    cases cm <;> rfl
  · rw [getEntry_setEntry_self]
    cases cm <;> rfl

/-- C5 witness: the amended statement at the concrete duplicated-slot input. -/
theorem c5_later_assignment_wins_witness :
    ∃ res : Swilib,
      parseSwilibPatch [.offset 0x1000, .patchData 0 [0x34, 0x12, 0x00, 0xA0] "0: foo",
          .patchData 0 [0x78, 0x56, 0x00, 0xA0] "0: bar"] { comments := false } = .ok res ∧
        (getEntry res.entries 0).map (fun e => e.value)
          = some (readUInt32LE [0x78, 0x56, 0x00, 0xA0]) ∧
        (getEntry res.entries 0).map (fun e => e.symbol) = some "bar" :=
  c5_later_assignment_wins 0x1000 0 [0x34, 0x12, 0x00, 0xA0] [0x78, 0x56, 0x00, 0xA0]
    "0: foo" "0: bar" "foo" "bar" false (by decide) (by decide) (by decide) (by decide)
    (by rfl) (by rfl)
